/-
Verification of the GitHub queue aggregation and normalization core of the
crane-command repository (src/src/app/api/github/route.ts and the type
declarations in src/unnamed/part_000).

The TypeScript source is shallowly embedded below:
  - the in-memory response cache (`cache`, `getCached`, `setCache`) becomes a
    function-typed map with explicit `now` parameters;
  - the query builder (`getQueryForQueue`) and its quote-encoding step;
  - the search client (`fetchGitHubQueue`) with the provider's reply passed in
    as data, classifying rate-limit (403/429) and other non-2xx statuses;
  - the normalizer (`normalizeGitHubIssue`) with its regex-based derivation
    rules (`extractPreviewUrl`, `extractAgentBrief`) implemented as
    deterministic character-list scanners with JavaScript regex semantics
    (leftmost match, the concrete backtracking behaviour of these two
    patterns, JS whitespace class, ASCII case folding);
  - the route handler (`GET`) as a pure function from the request token and
    queue parameter, the cache state, the current time and the provider reply
    to an outcome recording the HTTP status, body, number of outbound fetches
    performed and the cache state afterwards.

JavaScript `Date.now()` instants are embedded as `Int` milliseconds;
`Date.prototype.toISOString` is implemented below (`jsToISOString`) using the
standard civil-from-days calendar algorithm.
-/
import Mathlib

namespace CraneCommand

/-! ## Response cache (route.ts lines 23-37)

The TS module state `cache : Map<string, {data, timestamp}>` becomes a value
of type `CacheMap` threaded explicitly; `Date.now()` becomes the `now`
argument.  `qaTemperature` below is a TS `number` that this core never
populates; it is carried as `Int` (the carrier is irrelevant because the
field is provably always absent). -/

structure CacheEntry (α : Type) where
  data : α
  timestamp : Int
deriving DecidableEq

abbrev CacheMap (α : Type) := String → Option (CacheEntry α)

def CACHE_TTL : Int := 60000

def cacheDelete {α : Type} (cache : CacheMap α) (key : String) : CacheMap α :=
  fun k => if k = key then none else cache k

/-- Embedding of `getCached` (route.ts 26-33): return the payload when a live
entry exists, otherwise delete whatever is stored under the key and return
nothing.  The returned map is the cache after the call. -/
def getCached {α : Type} (cache : CacheMap α) (now : Int) (key : String) :
    Option α × CacheMap α :=
  match cache key with
  | some entry =>
    if now - entry.timestamp < CACHE_TTL then (some entry.data, cache)
    else (none, cacheDelete cache key)
  | none => (none, cacheDelete cache key)

/-- Embedding of `setCache` (route.ts 35-37). -/
def setCache {α : Type} (cache : CacheMap α) (now : Int) (key : String)
    (data : α) : CacheMap α :=
  fun k => if k = key then some ⟨data, now⟩ else cache k

/-! ## Character-level helpers

JS string primitives used by the route: `String.prototype.startsWith`,
`String.prototype.replace` with a plain-string pattern (first occurrence
only), `String.prototype.trim`, and the `\s` character class of JS regexes. -/

def isPrefixCs : List Char → List Char → Bool
  | [], _ => true
  | _ :: _, [] => false
  | p :: ps, c :: cs => p = c && isPrefixCs ps cs

/-- `s.startsWith(pre)` for JS strings. -/
def strStartsWith (s pre : String) : Bool :=
  isPrefixCs pre.data s.data

/-- `s.replace(pat, repl)` with a plain-string pattern: JS replaces only the
first occurrence. -/
def replaceFirstCs (pat repl : List Char) : List Char → List Char
  | [] => if isPrefixCs pat [] then repl else []
  | c :: cs =>
    if isPrefixCs pat (c :: cs) then repl ++ (c :: cs).drop pat.length
    else c :: replaceFirstCs pat repl cs

/-- The JS regex `\s` class (WhiteSpace plus LineTerminator code points),
which is also the set trimmed by `String.prototype.trim`. -/
def jsWhitespace (c : Char) : Bool :=
  c = ' ' || c = '\t' || c = '\n' || c.toNat = 11 || c.toNat = 12 || c = '\r' ||
  c.toNat = 0xa0 || c.toNat = 0x1680 ||
  (0x2000 ≤ c.toNat && c.toNat ≤ 0x200a) ||
  c.toNat = 0x2028 || c.toNat = 0x2029 || c.toNat = 0x202f ||
  c.toNat = 0x205f || c.toNat = 0x3000 || c.toNat = 0xfeff

/-- `s.trim()`. -/
def jsTrimList (l : List Char) : List Char :=
  ((l.dropWhile jsWhitespace).reverse.dropWhile jsWhitespace).reverse

/-- ASCII lower-casing, the case folding relevant to the `/i` regex patterns
of the route (all their letters are ASCII). -/
def lowerChar (c : Char) : Char :=
  if 'A' ≤ c ∧ c ≤ 'Z' then Char.ofNat (c.toNat + 32) else c

/-- Match a literal pattern (given lower-cased) case-insensitively at the
head of the input; on success return the consumed input characters (original
case) and the remainder. -/
def matchCiSplit : List Char → List Char → Option (List Char × List Char)
  | [], s => some ([], s)
  | _ :: _, [] => none
  | p :: ps, c :: cs =>
    if lowerChar c = p then
      (matchCiSplit ps cs).map (fun t => (c :: t.1, t.2))
    else none

/-- Try a position-wise matcher at every start position, left to right, and
return the first success: the leftmost-match rule of JS `String.match`. -/
def scanFirst (f : List Char → Option (List Char)) : List Char → Option (List Char)
  | [] => f []
  | c :: cs =>
    match f (c :: cs) with
    | some r => some r
    | none => scanFirst f cs

/-! ## `Date.prototype.toISOString` (used by the rate-limit message and the
`fetchedAt` field), via the civil-from-days calendar algorithm. -/

def natDigitsAux : Nat → Nat → List Char
  | 0, _ => []
  | fuel + 1, n =>
    if n < 10 then [Char.ofNat (48 + n)]
    else natDigitsAux fuel (n / 10) ++ [Char.ofNat (48 + n % 10)]

def natToStr (n : Nat) : String :=
  String.mk (natDigitsAux (n + 1) n)

def padNat (w n : Nat) : String :=
  String.mk (List.replicate (w - (natDigitsAux (n + 1) n).length) '0'
    ++ natDigitsAux (n + 1) n)

/-- Proleptic-Gregorian date from a day count relative to 1970-01-01. -/
def civilFromDays (z0 : Int) : Int × Nat × Nat :=
  let z := z0 + 719468
  let era := z.ediv 146097
  let doe := (z - era * 146097).toNat
  let yoe := (doe - doe / 1460 + doe / 36524 - doe / 146096) / 365
  let y := (yoe : Int) + era * 400
  let doy := doe - (365 * yoe + yoe / 4 - yoe / 100)
  let mp := (5 * doy + 2) / 153
  let d := doy - (153 * mp + 2) / 5 + 1
  let m := if mp < 10 then mp + 3 else mp - 9
  (if m ≤ 2 then y + 1 else y, m, d)

/-- `new Date(ms).toISOString()`. -/
def jsToISOString (ms : Int) : String :=
  let days := ms.ediv 86400000
  let msod := (ms - days * 86400000).toNat
  let c := civilFromDays days
  let yearStr :=
    if 0 ≤ c.1 ∧ c.1 ≤ 9999 then padNat 4 c.1.toNat
    else if c.1 < 0 then "-" ++ padNat 6 (-c.1).toNat
    else "+" ++ padNat 6 c.1.toNat
  yearStr ++ "-" ++ padNat 2 c.2.1 ++ "-" ++ padNat 2 c.2.2 ++ "T" ++
  padNat 2 (msod / 3600000) ++ ":" ++ padNat 2 (msod % 3600000 / 60000) ++ ":" ++
  padNat 2 (msod % 60000 / 1000) ++ "." ++ padNat 3 (msod % 1000) ++ "Z"

/-! ## Data model (src/unnamed/part_000)

`QueueType` is a TS string union and travels as a string at runtime; the
handler validates against the `validQueues` array, so queue identifiers are
embedded as `String`.  `Verdict` and `QaProvider` embed the
`'PASS'|'FAIL'|'BLOCKED'` and `'anthropic'|'openai'` unions of the Phase-2
placeholder fields. -/

inductive Verdict where
  | pass
  | fail
  | blocked
deriving DecidableEq

inductive QaProvider where
  | anthropic
  | openai
deriving DecidableEq

structure GitHubLabel where
  name : String
  color : String
  description : Option String
deriving DecidableEq

/-- The raw issue/PR record of the provider (route.ts 51-59);
`pull_request` carries the marker object's `url` when present. -/
structure GitHubIssue where
  number : Int
  title : String
  html_url : String
  body : Option String
  labels : List GitHubLabel
  updated_at : String
  pull_request : Option String
deriving DecidableEq

/-- `WorkQueueCard` (src/unnamed/part_000 lines 27-54).  TS optional fields
become `Option`; `undefined` is `none`. -/
structure WorkQueueCard where
  type : String
  number : Int
  title : String
  url : String
  body : String
  labels : List GitHubLabel
  updatedAt : String
  previewUrl : Option String
  statusLabels : List String
  needsLabels : List String
  qaGrade : Option String
  hasAgentBrief : Bool
  lastEventType : Option String
  lastEventTimestamp : Option String
  overallVerdict : Option Verdict
  provenanceVerified : Option Bool
  qaProvider : Option QaProvider
  qaModel : Option String
  qaTemperature : Option Int
deriving DecidableEq

/-! ## Derivation rules (route.ts 174-193)

`extractPreviewUrl` embeds the regex
`/(?:preview|deploy)(?:\s+url)?:\s*(https?:\/\/[^\s)]+)/i` and
`extractAgentBrief` embeds `/##\s*Agent Brief\s*\n([\s\S]*?)(?=\n##|$)/i`.
Both matchers are written position-wise; for these two patterns every
backtracking choice of the JS engine is forced (each greedy or optional
piece is followed by a character that cannot belong to it), so the
deterministic scanners below realize exactly the JS leftmost-match
semantics. -/

/-- One position of the preview-URL regex: keyword `preview`/`deploy`,
optional whitespace+`url`, colon, optional whitespace, then the captured
`http(s)://...` run of characters that are neither whitespace nor `)`. -/
def previewMatchAt (s : List Char) : Option (List Char) :=
  let kw :=
    match matchCiSplit "preview".data s with
    | some t => some t.2
    | none => (matchCiSplit "deploy".data s).map Prod.snd
  match kw with
  | none => none
  | some r1 =>
    -- (?:\s+url)? : committed when one or more whitespace chars are
    -- followed by "url"; otherwise zero-width
    let r2 :=
      if (r1.takeWhile jsWhitespace).isEmpty then r1
      else
        match matchCiSplit "url".data (r1.dropWhile jsWhitespace) with
        | some t => t.2
        | none => r1
    match r2 with
    | ':' :: r3 =>
      let r4 := r3.dropWhile jsWhitespace
      match matchCiSplit "http".data r4 with
      | none => none
      | some (c1, r5) =>
        let sr :=
          match r5 with
          | c :: r6 => if lowerChar c = 's' then ([c], r6) else ([], r5)
          | [] => ([], r5)
        match matchCiSplit "://".data sr.2 with
        | none => none
        | some (c2, r7) =>
          let run := r7.takeWhile (fun c => !jsWhitespace c && c ≠ ')')
          if run.isEmpty then none
          else some (c1 ++ sr.1 ++ c2 ++ run)
    | _ => none

/-- Embedding of `extractPreviewUrl` (route.ts 174-183): capture group 1 of
the first match. -/
def extractPreviewUrl (body : String) : Option String :=
  (scanFirst previewMatchAt body.data).map String.mk

/-- Largest index of a newline in a character list, if any: the backtracking
target of `\s*\n` inside a maximal whitespace run. -/
def lastIdxNl : List Char → Option Nat
  | [] => none
  | c :: cs =>
    match lastIdxNl cs with
    | some k => some (k + 1)
    | none => if c = '\n' then some 0 else none

/-- The lazy `([\s\S]*?)(?=\n##|$)` tail: everything up to the first
occurrence of `"\n##"`, or to the end of the input. -/
def briefCapture : List Char → List Char
  | '\n' :: '#' :: '#' :: _ => []
  | c :: cs => c :: briefCapture cs
  | [] => []

/-- One position of the agent-brief regex: literal `##`, greedy whitespace,
`Agent Brief` case-insensitively, then `\s*\n` (the last newline of the
following maximal whitespace run), then the lazy capture. -/
def agentBriefMatchAt (s : List Char) : Option (List Char) :=
  match s with
  | '#' :: '#' :: r0 =>
    match matchCiSplit "agent brief".data (r0.dropWhile jsWhitespace) with
    | none => none
    | some (_, r2) =>
      match lastIdxNl (r2.takeWhile jsWhitespace) with
      | none => none
      | some k => some (briefCapture (r2.drop (k + 1)))
  | _ => none

/-- Embedding of `extractAgentBrief` (route.ts 185-193): capture group 1 of
the first match, trimmed, and rejected when shorter than 10 characters. -/
def extractAgentBrief (body : String) : Option String :=
  match scanFirst agentBriefMatchAt body.data with
  | none => none
  | some cap =>
    let brief := jsTrimList cap
    if brief.length < 10 then none else some (String.mk brief)

/-! ## Normalizer (route.ts 128-168) -/

/-- Embedding of `normalizeGitHubIssue`.  The TS object literal omits every
Phase-2 field, so they are `none` here; `issue.body || ''` maps a missing
body to the empty string; `l.name.replace('qa-grade:', '')` replaces the
first occurrence. -/
def normalizeGitHubIssue (issue : GitHubIssue) : WorkQueueCard :=
  let labels := issue.labels
  let body := issue.body.getD ""
  let statusLabels :=
    (labels.filter (fun l => strStartsWith l.name "status:")).map (fun l => l.name)
  let needsLabels :=
    (labels.filter (fun l => strStartsWith l.name "needs:")).map (fun l => l.name)
  let qaGradeLabel := labels.find? (fun l => strStartsWith l.name "qa-grade:")
  let qaGrade :=
    qaGradeLabel.map (fun l => String.mk (replaceFirstCs "qa-grade:".data [] l.name.data))
  let previewUrl := extractPreviewUrl body
  let hasAgentBrief := (extractAgentBrief body).isSome
  { type := if issue.pull_request.isSome then "pr" else "issue"
    number := issue.number
    title := issue.title
    url := issue.html_url
    body := body
    labels := labels
    updatedAt := issue.updated_at
    previewUrl := previewUrl
    statusLabels := statusLabels
    needsLabels := needsLabels
    qaGrade := qaGrade
    hasAgentBrief := hasAgentBrief
    lastEventType := none
    lastEventTimestamp := none
    overallVerdict := none
    provenanceVerified := none
    qaProvider := none
    qaModel := none
    qaTemperature := none }

/-! ## Query builder and search client (route.ts 43-126) -/

def GITHUB_OWNER : String := "durganfieldguide"
def GITHUB_REPO : String := "dfg-console"

/-- Embedding of `getQueryForQueue` (route.ts 61-78); the `default: throw`
arm becomes `none`. -/
def getQueryForQueue (queue : String) : Option String :=
  let base := "repo:" ++ GITHUB_OWNER ++ "/" ++ GITHUB_REPO ++ "+state:open"
  if queue = "needs-qa" then some (base ++ "+label:\"needs:qa\"")
  else if queue = "needs-pm" then some (base ++ "+label:\"needs:pm\"")
  else if queue = "dev-queue" then
    some (base ++ "+label:\"status:ready\"+label:\"needs:dev\"")
  else if queue = "ready-to-merge" then some (base ++ "+label:\"status:verified\"")
  else if queue = "in-flight" then some (base ++ "+label:\"status:in-progress\"")
  else none

/-- `query.replace(/"/g, '%22')` (route.ts 86): encode only the quote
characters, globally. -/
def encodeQuotes (s : String) : String :=
  String.mk (s.data.foldr
    (fun c acc => if c = '"' then '%' :: '2' :: '2' :: acc else c :: acc) [])

/-- The outbound search URL built by `fetchGitHubQueue` (route.ts 87). -/
def requestUrlForQueue (queue : String) : Option String :=
  (getQueryForQueue queue).map (fun query =>
    "https://api.github.com/search/issues?q=" ++ encodeQuotes query ++
    "&sort=updated&order=desc&per_page=50")

/-- The provider's HTTP reply, as consumed by `fetchGitHubQueue`: the status
code, the `X-RateLimit-Reset` header (epoch seconds) when present, and the
parsed `items` of a success body. -/
structure ProviderReply where
  status : Nat
  rateLimitReset : Option Nat
  items : List GitHubIssue
deriving DecidableEq

/-- `response.ok`: HTTP status in the 2xx range. -/
def responseOk (status : Nat) : Bool :=
  200 ≤ status && status < 300

/-- The rate-limit error message of route.ts 108-116. -/
def rateLimitMessage (reset : Option Nat) : String :=
  "GitHub rate limit exceeded" ++
    match reset with
    | some r => ". Resets at " ++ jsToISOString ((r : Int) * 1000)
    | none => ""

/-- Embedding of `fetchGitHubQueue` (route.ts 80-126): build the query (a
thrown `Unknown queue type` becomes `.error` before any fetch), classify
403/429 as rate limiting, any other non-2xx as a generic provider error, and
normalize every item on success. -/
def fetchGitHubQueue (queue : String) (reply : ProviderReply) :
    Except String (List WorkQueueCard) :=
  match getQueryForQueue queue with
  | none => .error ("Unknown queue type: " ++ queue)
  | some query =>
    let _url := "https://api.github.com/search/issues?q=" ++ encodeQuotes query ++
      "&sort=updated&order=desc&per_page=50"
    if responseOk reply.status = false then
      if reply.status = 403 || reply.status = 429 then
        .error (rateLimitMessage reply.rateLimitReset)
      else
        .error ("GitHub API error: " ++ natToStr reply.status)
    else
      .ok (reply.items.map normalizeGitHubIssue)

/-! ## Route handler (route.ts 199-304) -/

def validQueues : List String :=
  ["needs-qa", "needs-pm", "dev-queue", "ready-to-merge", "in-flight"]

/-- `validQueues.join(', ')`. -/
def joinComma : List String → String
  | [] => ""
  | [s] => s
  | s :: rest => s ++ ", " ++ joinComma rest

/-- The cached payload `{cards, fetchedAt}` (route.ts 277). -/
structure QueuePayload where
  cards : List WorkQueueCard
  fetchedAt : String
deriving DecidableEq

inductive GetBody where
  | success (queue : String) (cards : List WorkQueueCard) (cached : Bool)
      (fetchedAt : String)
  | failure (code : String) (message : String)
deriving DecidableEq

/-- What one invocation of the handler did: HTTP status, JSON body, how many
outbound provider fetches it performed, and the cache afterwards. -/
structure GetOutcome where
  status : Nat
  body : GetBody
  outboundFetches : Nat
  cacheAfter : CacheMap QueuePayload

/-- Embedding of the route handler `GET` (route.ts 199-304).  `token` is
`process.env.GITHUB_TOKEN` (`none` when unset) and `queueParam` is
`searchParams.get('queue')`; both TS truthiness tests (`!token`, `!queue`)
treat the empty string like absence.  `now` is the request instant; `reply`
is what the provider would answer if fetched. -/
def GET (token : Option String) (queueParam : Option String)
    (cache : CacheMap QueuePayload) (now : Int) (reply : ProviderReply) :
    GetOutcome :=
  if token = none ∨ token = some "" then
    ⟨401, .failure "CONFIG_ERROR" "GitHub token not configured", 0, cache⟩
  else if queueParam = none ∨ queueParam = some "" then
    ⟨400, .failure "MISSING_PARAMETER" "Queue parameter is required", 0, cache⟩
  else
    let queue := queueParam.getD ""
    if validQueues.contains queue = false then
      ⟨400, .failure "INVALID_PARAMETER"
        ("Invalid queue type. Must be one of: " ++ joinComma validQueues), 0, cache⟩
    else
      let cacheKey := "github:queue:" ++ queue
      match getCached cache now cacheKey with
      | (some data, cache1) =>
        ⟨200, .success queue data.cards true data.fetchedAt, 0, cache1⟩
      | (none, cache1) =>
        match fetchGitHubQueue queue reply with
        | .ok cards =>
          let fetchedAt := jsToISOString now
          ⟨200, .success queue cards false fetchedAt, 1,
            setCache cache1 now cacheKey ⟨cards, fetchedAt⟩⟩
        | .error msg => ⟨502, .failure "GITHUB_ERROR" msg, 1, cache1⟩

/-! ## Spec-side formulations and concrete fixtures -/

/-- Spec formulation of the preview-URL scan: the match at the smallest
start position wins (spec 4.4, "take the first match's URL"). -/
def previewUrlSpec (body : String) : Option String :=
  (((List.range (body.data.length + 1)).findSome?
    (fun i => previewMatchAt (body.data.drop i))).map String.mk)

/-- A containment statement for error messages. -/
def strContainsStr (s sub : String) : Prop :=
  ∃ a b : String, s = a ++ (sub ++ b)

/-- The empty cache state. -/
def cEmpty : CacheMap QueuePayload := fun _ => none

/-- A successful provider reply with no items. -/
def okReply : ProviderReply := ⟨200, none, []⟩

/-- A raw item fixture around a given body. -/
def issueWithBody (b : String) : GitHubIssue :=
  ⟨1, "title", "http://u", some b, [], "2024-01-01T00:00:00Z", none⟩

/-! ## Helper lemmas -/

theorem scanFirst_eq_findSome (f : List Char → Option (List Char)) (l : List Char) :
    scanFirst f l = (List.range (l.length + 1)).findSome? (fun i => f (l.drop i)) := by
  induction l with
  | nil => cases h : f [] <;> simp [scanFirst, List.findSome?, h]
  | cons c cs ih =>
    rw [List.length_cons, List.range_succ_eq_map, List.findSome?_cons]
    cases h : f (c :: cs) with
    | some r => simp [scanFirst, h]
    | none =>
      simp only [List.drop_zero, h, scanFirst, List.findSome?_map,
        Function.comp_def, List.drop_succ_cons]
      exact ih

theorem filter_name_comm (p : String → Bool) (l : List GitHubLabel) :
    (l.filter (fun x => p x.name)).map (fun x => x.name) =
      (l.map (fun x => x.name)).filter p := by
  induction l with
  | nil => rfl
  | cons a t ih =>
    cases h : p a.name <;>
      simp [List.filter_cons, List.map_cons, h, ih]

theorem find?_name_comm (p : String → Bool) (l : List GitHubLabel) :
    (l.find? (fun x => p x.name)).map (fun x => x.name) =
      ((l.map (fun x => x.name)).filter p).head? := by
  induction l with
  | nil => rfl
  | cons a t ih =>
    cases h : p a.name <;>
      simp [List.find?_cons, List.filter_cons, List.map_cons, h, ih]

theorem replaceFirstCs_of_isPrefix (pat repl s : List Char)
    (h : isPrefixCs pat s = true) :
    replaceFirstCs pat repl s = repl ++ s.drop pat.length := by
  cases s with
  | nil =>
    simp only [replaceFirstCs, h, if_true, List.drop_nil, List.append_nil]
  | cons c cs =>
    simp only [replaceFirstCs, h, if_true]

theorem strAppend_assoc (a b c : String) : a ++ b ++ c = a ++ (b ++ c) := by
  cases a with
  | mk as =>
    cases b with
    | mk bs =>
      cases c with
      | mk cs =>
        show String.mk (as ++ bs ++ cs) = String.mk (as ++ (bs ++ cs))
        rw [List.append_assoc]

theorem strAppend_empty (a : String) : a ++ "" = a := by
  cases a with
  | mk as =>
    show String.mk (as ++ []) = String.mk as
    rw [List.append_nil]

theorem valid_queue_cases (q : String) (hq : validQueues.contains q = true) :
    q = "needs-qa" ∨ q = "needs-pm" ∨ q = "dev-queue" ∨
    q = "ready-to-merge" ∨ q = "in-flight" := by
  simpa [validQueues, List.contains, List.elem_cons, beq_iff_eq] using hq

theorem getQuery_of_valid (q : String) (hq : validQueues.contains q = true) :
    ∃ query, getQueryForQueue q = some query := by
  rcases valid_queue_cases q hq with h | h | h | h | h <;> subst h <;>
    exact ⟨_, rfl⟩

/-! ## Claims -/

/-- Claim C2: for every key `k` and payload `v`, `get(k)` within 60000 ms of
`put(k, v)` (no intervening put) returns `v` unchanged; `get(k)` once 60000 ms
or more have elapsed returns no entry and deletes the entry, so a subsequent
`get(k)` without an intervening put also returns no entry; and `put(k, v)`
unconditionally stores `v` with the current timestamp, replacing any existing
entry for `k`. -/
theorem c2_cache_contract (α : Type) (k : String) (v : α)
    (cache : CacheMap α) (now1 now2 : Int) :
    (now1 ≤ now2 → now2 - now1 < 60000 →
      (getCached (setCache cache now1 k v) now2 k).1 = some v) ∧
    (60000 ≤ now2 - now1 →
      getCached (setCache cache now1 k v) now2 k =
        (none, cacheDelete (setCache cache now1 k v) k) ∧
      ∀ now3 : Int,
        (getCached ((getCached (setCache cache now1 k v) now2 k).2) now3 k).1 =
          (none : Option α)) ∧
    setCache cache now1 k v k = some ⟨v, now1⟩ := by
  have hset : setCache cache now1 k v k = some ⟨v, now1⟩ := by
    simp [setCache]
  refine ⟨fun _ h2 => ?_, fun h => ?_, hset⟩
  · simp [getCached, hset, CACHE_TTL, h2]
  · have hlt : ¬ (now2 - now1 < CACHE_TTL) := by
      simp only [CACHE_TTL]; omega
    have hexp : getCached (setCache cache now1 k v) now2 k =
        (none, cacheDelete (setCache cache now1 k v) k) := by
      simp [getCached, hset, if_neg hlt]
    refine ⟨hexp, fun now3 => ?_⟩
    rw [hexp]
    simp [getCached, cacheDelete]

/-- Witness for C2 at `k = "k"`, `v = 7`, an empty cache, a put at time 0, a
live get at time 1, an expired get at time 70000 and a subsequent get at time
80000. -/
theorem c2_cache_contract_witness :
    (((1 : Int) - 0 < 60000) ∧
      (getCached (setCache (fun _ => none : CacheMap Nat) 0 "k" 7) 1 "k").1 = some 7) ∧
    (((60000 : Int) ≤ 70000 - 0) ∧
      (getCached ((getCached (setCache (fun _ => none : CacheMap Nat) 0 "k" 7) 70000 "k").2)
        80000 "k").1 = none) ∧
    setCache (fun _ => none : CacheMap Nat) 0 "k" 7 "k" = some ⟨7, 0⟩ :=
  ⟨⟨by decide,
    (c2_cache_contract Nat "k" 7 (fun _ => none) 0 1).1 (by decide) (by decide)⟩,
   ⟨by decide,
    ((c2_cache_contract Nat "k" 7 (fun _ => none) 0 70000).2.1 (by decide)).2 80000⟩,
   (c2_cache_contract Nat "k" 7 (fun _ => none) 0 70000).2.2⟩

/-- Claim C3: for each of the five queue identifiers the encoded search query
is the fixed repository scope plus open-state filter plus exactly the queue's
label filters, with only the quote characters percent-encoded (`%22`) and the
structural `+` and `:` left literal; the final conjunct shows the encoded
query embedded in the outbound request URL. -/
theorem c3_query_encoding :
    (getQueryForQueue "needs-qa").map encodeQuotes =
      some "repo:durganfieldguide/dfg-console+state:open+label:%22needs:qa%22" ∧
    (getQueryForQueue "needs-pm").map encodeQuotes =
      some "repo:durganfieldguide/dfg-console+state:open+label:%22needs:pm%22" ∧
    (getQueryForQueue "dev-queue").map encodeQuotes =
      some "repo:durganfieldguide/dfg-console+state:open+label:%22status:ready%22+label:%22needs:dev%22" ∧
    (getQueryForQueue "ready-to-merge").map encodeQuotes =
      some "repo:durganfieldguide/dfg-console+state:open+label:%22status:verified%22" ∧
    (getQueryForQueue "in-flight").map encodeQuotes =
      some "repo:durganfieldguide/dfg-console+state:open+label:%22status:in-progress%22" ∧
    requestUrlForQueue "needs-qa" =
      some "https://api.github.com/search/issues?q=repo:durganfieldguide/dfg-console+state:open+label:%22needs:qa%22&sort=updated&order=desc&per_page=50" := by
  decide

/-- Claim C4: for every raw item, `statusLabels` (resp. `needsLabels`) is
exactly the list of label names beginning with the case-sensitive prefixes
`status:` (resp. `needs:`), in source order, and `qaGrade` is the first label
name (source order) beginning with `qa-grade:` with that prefix stripped, or
absent when no such label exists. -/
theorem c4_label_derivation (issue : GitHubIssue) :
    (normalizeGitHubIssue issue).statusLabels =
      (issue.labels.map (fun l => l.name)).filter (fun n => strStartsWith n "status:") ∧
    (normalizeGitHubIssue issue).needsLabels =
      (issue.labels.map (fun l => l.name)).filter (fun n => strStartsWith n "needs:") ∧
    (normalizeGitHubIssue issue).qaGrade =
      ((issue.labels.map (fun l => l.name)).filter
        (fun n => strStartsWith n "qa-grade:")).head?.map
        (fun n => String.mk (n.data.drop (String.length "qa-grade:"))) := by
  refine ⟨?_, ?_, ?_⟩
  · simpa [normalizeGitHubIssue] using
      filter_name_comm (fun n => strStartsWith n "status:") issue.labels
  · simpa [normalizeGitHubIssue] using
      filter_name_comm (fun n => strStartsWith n "needs:") issue.labels
  · have hc := find?_name_comm (fun n => strStartsWith n "qa-grade:") issue.labels
    cases hf : issue.labels.find? (fun l => strStartsWith l.name "qa-grade:") with
    | none =>
      rw [hf] at hc
      simp [normalizeGitHubIssue, hf, ← hc]
    | some l =>
      rw [hf] at hc
      have hp0 := List.find?_some hf
      have hp : isPrefixCs "qa-grade:".data l.name.data = true := hp0
      simp [normalizeGitHubIssue, hf, ← hc,
        replaceFirstCs_of_isPrefix "qa-grade:".data [] l.name.data hp, String.length]

/-- Claim C9: every card produced by the normalizer leaves all Phase-2
reserved fields entirely absent, and the optional derived fields are the
defined absent value `none` (never a placeholder) whenever the source body or
labels supply nothing for them. -/
theorem c9_reserved_fields_absent (issue : GitHubIssue) :
    (normalizeGitHubIssue issue).lastEventType = none ∧
    (normalizeGitHubIssue issue).lastEventTimestamp = none ∧
    (normalizeGitHubIssue issue).overallVerdict = none ∧
    (normalizeGitHubIssue issue).provenanceVerified = none ∧
    (normalizeGitHubIssue issue).qaProvider = none ∧
    (normalizeGitHubIssue issue).qaModel = none ∧
    (normalizeGitHubIssue issue).qaTemperature = none ∧
    (extractPreviewUrl (issue.body.getD "") = none →
      (normalizeGitHubIssue issue).previewUrl = none) ∧
    (issue.labels.find? (fun l => strStartsWith l.name "qa-grade:") = none →
      (normalizeGitHubIssue issue).qaGrade = none) := by
  refine ⟨rfl, rfl, rfl, rfl, rfl, rfl, rfl, fun h => ?_, fun h => ?_⟩
  · simp [normalizeGitHubIssue, h]
  · simp [normalizeGitHubIssue, h]

/-- Witness for C9 on an item whose body has no preview pattern and whose
label list has no `qa-grade:` label. -/
theorem c9_reserved_fields_absent_witness :
    extractPreviewUrl ((issueWithBody "plain body").body.getD "") = none ∧
    (issueWithBody "plain body").labels.find?
      (fun l => strStartsWith l.name "qa-grade:") = none ∧
    (normalizeGitHubIssue (issueWithBody "plain body")).previewUrl = none ∧
    (normalizeGitHubIssue (issueWithBody "plain body")).qaGrade = none :=
  ⟨by decide, by decide,
   (c9_reserved_fields_absent (issueWithBody "plain body")).2.2.2.2.2.2.2.1 (by decide),
   (c9_reserved_fields_absent (issueWithBody "plain body")).2.2.2.2.2.2.2.2 (by decide)⟩

/-- Claim C10: with no configured credential the handler answers 401 with
`CONFIG_ERROR` regardless of the queue parameter — the credential check
precedes parameter validation — and attempts no outbound fetch. -/
theorem c10_config_error_precedes_validation (queueParam : Option String)
    (cache : CacheMap QueuePayload) (now : Int) (reply : ProviderReply) :
    (GET none queueParam cache now reply).status = 401 ∧
    (GET none queueParam cache now reply).body =
      GetBody.failure "CONFIG_ERROR" "GitHub token not configured" ∧
    (GET none queueParam cache now reply).outboundFetches = 0 := by
  refine ⟨?_, ?_, ?_⟩ <;> simp [GET]

/-- Claim C5: `previewUrl` is the URL captured by the first (leftmost)
case-insensitive match of `preview`/`deploy`, optional whitespace+`url`,
colon, optional whitespace, then an `http(s)://` URL free of whitespace and
closing parentheses; with no such pattern the result is absent.  The first
conjunct is the leftmost-match characterization; the remaining conjuncts
exercise the pattern on concrete bodies (keyword variants, case
insensitivity and case preservation, the `)`/whitespace terminators, the
missing-colon and wrong-scheme failures, and first-match-wins). -/
theorem c5_preview_url_extraction :
    (∀ body : String, extractPreviewUrl body = previewUrlSpec body) ∧
    extractPreviewUrl "Preview: https://example.com/x\nmore text" =
      some "https://example.com/x" ∧
    extractPreviewUrl "Preview URL: https://a.dev/p" = some "https://a.dev/p" ∧
    extractPreviewUrl "deploy: http://h/q) rest" = some "http://h/q" ∧
    extractPreviewUrl "See DEPLOY URL:HTTPS://X.IO/Y for info" =
      some "HTTPS://X.IO/Y" ∧
    extractPreviewUrl "deploy:http://first deploy:http://second" =
      some "http://first" ∧
    extractPreviewUrl "preview https://nope.example" = none ∧
    extractPreviewUrl "preview: ftp://x" = none ∧
    extractPreviewUrl "no such pattern here" = none := by
  refine ⟨fun body => ?_, ?_, ?_, ?_, ?_, ?_, ?_, ?_, ?_⟩
  · unfold extractPreviewUrl previewUrlSpec
    rw [scanFirst_eq_findSome]
  all_goals decide

/-- Claim C6: `hasAgentBrief` is true iff the body contains a heading
matching `Agent Brief` case-insensitively whose following text, up to the
next heading or the end of the body, trims to at least 10 characters.  The
first conjunct ties the card flag to the extractor; the second proves every
extracted brief is at least 10 characters after trimming; the remaining
conjuncts exercise the three spec examples and the 10-character boundary. -/
theorem c6_agent_brief_detection :
    (∀ issue : GitHubIssue, (normalizeGitHubIssue issue).hasAgentBrief =
      (extractAgentBrief (issue.body.getD "")).isSome) ∧
    (∀ body b : String, extractAgentBrief body = some b → 10 ≤ b.length) ∧
    (normalizeGitHubIssue (issueWithBody
      "## Agent Brief\nThis is a sufficiently long brief description.\n## Other")).hasAgentBrief
      = true ∧
    (normalizeGitHubIssue (issueWithBody "## Agent Brief\nshort")).hasAgentBrief
      = false ∧
    (normalizeGitHubIssue (issueWithBody
      "a body with no heading at all")).hasAgentBrief = false ∧
    extractAgentBrief "## Agent Brief\n0123456789" = some "0123456789" ∧
    extractAgentBrief "## Agent Brief\n012345678" = none ∧
    extractAgentBrief "#### aGeNt BrIeF \n\n  the real content here  \n## Next" =
      some "the real content here" := by
  refine ⟨fun issue => rfl, fun body b h => ?_, ?_, ?_, ?_, ?_, ?_, ?_⟩
  · unfold extractAgentBrief at h
    cases hs : scanFirst agentBriefMatchAt body.data with
    | none => rw [hs] at h; exact absurd h (by simp)
    | some cap =>
      rw [hs] at h
      simp only at h
      by_cases hl : (jsTrimList cap).length < 10
      · rw [if_pos hl] at h; cases h
      · rw [if_neg hl] at h
        cases h
        simpa [String.length] using Nat.le_of_not_lt hl
  all_goals decide

/-- Witness for C6's general conjunct at the spec's own example body. -/
theorem c6_agent_brief_detection_witness :
    extractAgentBrief
      "## Agent Brief\nThis is a sufficiently long brief description.\n## Other" =
      some "This is a sufficiently long brief description." ∧
    10 ≤ String.length "This is a sufficiently long brief description." :=
  ⟨by decide,
   c6_agent_brief_detection.2.1
     "## Agent Brief\nThis is a sufficiently long brief description.\n## Other"
     "This is a sufficiently long brief description." (by decide)⟩

/-- Claim C7: a provider reply with HTTP status 403 or 429 makes the queue
fetch fail with the rate-limit error and never yields cards, and whenever the
reply carries an `X-RateLimit-Reset` time the error message contains the ISO
timestamp computed from that epoch-seconds value. -/
theorem c7_rate_limit_classification (q : String) (reply : ProviderReply)
    (hq : validQueues.contains q = true)
    (hrl : reply.status = 403 ∨ reply.status = 429) :
    fetchGitHubQueue q reply = .error (rateLimitMessage reply.rateLimitReset) ∧
    (∀ cards, fetchGitHubQueue q reply ≠ .ok cards) ∧
    (∀ r : Nat, reply.rateLimitReset = some r →
      strContainsStr (rateLimitMessage reply.rateLimitReset)
        (jsToISOString ((r : Int) * 1000))) := by
  obtain ⟨query, hquery⟩ := getQuery_of_valid q hq
  have hcls : fetchGitHubQueue q reply =
      .error (rateLimitMessage reply.rateLimitReset) := by
    rcases hrl with h | h <;> simp [fetchGitHubQueue, hquery, responseOk, h]
  refine ⟨hcls, ?_, fun r hr => ?_⟩
  · intro cards hc
    rw [hcls] at hc
    cases hc
  rw [hr]
  refine ⟨"GitHub rate limit exceeded" ++ ". Resets at ", "", ?_⟩
  rw [strAppend_empty, strAppend_assoc]
  rfl

/-- Witness for C7: queue `needs-qa`, a 403 reply whose reset header is epoch
second 1700000000 (2023-11-14T22:13:20.000Z). -/
theorem c7_rate_limit_classification_witness :
    validQueues.contains "needs-qa" = true ∧
    ((403 : Nat) = 403 ∨ (403 : Nat) = 429) ∧
    fetchGitHubQueue "needs-qa" ⟨403, some 1700000000, []⟩ =
      .error (rateLimitMessage (some 1700000000)) ∧
    strContainsStr (rateLimitMessage (some 1700000000))
      (jsToISOString ((1700000000 : Int) * 1000)) :=
  ⟨by decide, Or.inl rfl,
   (c7_rate_limit_classification "needs-qa" ⟨403, some 1700000000, []⟩
     (by decide) (Or.inl rfl)).1,
   (c7_rate_limit_classification "needs-qa" ⟨403, some 1700000000, []⟩
     (by decide) (Or.inl rfl)).2.2 1700000000 rfl⟩

/-- Claim C8 as stated is false: the request `?queue=` carries a queue
parameter that is present (the empty string) and outside the five-value set,
yet the handler answers `MISSING_PARAMETER` — the TS truthiness test
`if (!queue)` treats the empty string like absence — not the
`INVALID_PARAMETER` the claim requires for every out-of-set parameter. -/
theorem c8_counterexample :
    validQueues.contains "" = false ∧
    (GET (some "t") (some "") cEmpty 0 okReply).status = 400 ∧
    (GET (some "t") (some "") cEmpty 0 okReply).body =
      GetBody.failure "MISSING_PARAMETER" "Queue parameter is required" ∧
    (GET (some "t") (some "") cEmpty 0 okReply).body ≠
      GetBody.failure "INVALID_PARAMETER"
        ("Invalid queue type. Must be one of: " ++ joinComma validQueues) := by
  refine ⟨by decide, by decide, by decide, by decide⟩

/-- Claim C8 (amended): an absent — or empty, which the handler's truthiness
test conflates with absent — queue parameter draws 400 `MISSING_PARAMETER`; a
present non-empty parameter outside the five-value set draws 400
`INVALID_PARAMETER` with a message listing the valid values; in both cases no
outbound fetch is attempted. -/
theorem c8_param_validation (tok : String) (cache : CacheMap QueuePayload)
    (now : Int) (reply : ProviderReply) (htok : tok ≠ "") :
    (∀ queueParam : Option String, (queueParam = none ∨ queueParam = some "") →
      (GET (some tok) queueParam cache now reply).status = 400 ∧
      (GET (some tok) queueParam cache now reply).body =
        GetBody.failure "MISSING_PARAMETER" "Queue parameter is required" ∧
      (GET (some tok) queueParam cache now reply).outboundFetches = 0) ∧
    (∀ q : String, q ≠ "" → validQueues.contains q = false →
      (GET (some tok) (some q) cache now reply).status = 400 ∧
      (GET (some tok) (some q) cache now reply).body =
        GetBody.failure "INVALID_PARAMETER"
          ("Invalid queue type. Must be one of: " ++ joinComma validQueues) ∧
      (GET (some tok) (some q) cache now reply).outboundFetches = 0) ∧
    joinComma validQueues = "needs-qa, needs-pm, dev-queue, ready-to-merge, in-flight" := by
  refine ⟨?_, ?_, by decide⟩
  · rintro queueParam (rfl | rfl) <;>
      refine ⟨?_, ?_, ?_⟩ <;> simp [GET, htok]
  · intro q hq hval
    have hmem : q ∉ validQueues := by simpa using hval
    refine ⟨?_, ?_, ?_⟩ <;> simp [GET, htok, hq, hval, hmem]

/-- Witness for the amended C8 at the missing-parameter request `?` and the
invalid request `?queue=bogus`. -/
theorem c8_param_validation_witness :
    (("t" : String) ≠ "") ∧
    (GET (some "t") none cEmpty 0 okReply).body =
      GetBody.failure "MISSING_PARAMETER" "Queue parameter is required" ∧
    (("bogus" : String) ≠ "") ∧ validQueues.contains "bogus" = false ∧
    (GET (some "t") (some "bogus") cEmpty 0 okReply).body =
      GetBody.failure "INVALID_PARAMETER"
        ("Invalid queue type. Must be one of: " ++ joinComma validQueues) ∧
    (GET (some "t") (some "bogus") cEmpty 0 okReply).outboundFetches = 0 :=
  ⟨by decide,
   ((c8_param_validation "t" cEmpty 0 okReply (by decide)).1 none (Or.inl rfl)).2.1,
   by decide, by decide,
   ((c8_param_validation "t" cEmpty 0 okReply (by decide)).2.1 "bogus"
     (by decide) (by decide)).2.1,
   ((c8_param_validation "t" cEmpty 0 okReply (by decide)).2.1 "bogus"
     (by decide) (by decide)).2.2⟩

/-- Claim C1: for every valid queue identifier, a request with no live cache
entry performs exactly one outbound fetch, answers 200 with the normalized
cards, `cached = false` and the current fetch timestamp, and stores that card
list and timestamp under the queue's cache key; any second request for the
same queue within the 60-second TTL performs no outbound fetch and answers
`cached = true` with the identical card list and the stored timestamp. -/
theorem c1_fetch_then_cache_hit (tok q : String) (cache : CacheMap QueuePayload)
    (now : Int) (reply : ProviderReply)
    (htok : tok ≠ "")
    (hq : validQueues.contains q = true)
    (hmiss : (getCached cache now ("github:queue:" ++ q)).1 = none)
    (hok : responseOk reply.status = true) :
    (GET (some tok) (some q) cache now reply).outboundFetches = 1 ∧
    (GET (some tok) (some q) cache now reply).status = 200 ∧
    (GET (some tok) (some q) cache now reply).body =
      GetBody.success q (reply.items.map normalizeGitHubIssue) false
        (jsToISOString now) ∧
    (GET (some tok) (some q) cache now reply).cacheAfter ("github:queue:" ++ q) =
      some ⟨⟨reply.items.map normalizeGitHubIssue, jsToISOString now⟩, now⟩ ∧
    (∀ (now2 : Int) (reply2 : ProviderReply), now2 - now < 60000 →
      (GET (some tok) (some q)
        ((GET (some tok) (some q) cache now reply).cacheAfter) now2 reply2).outboundFetches = 0 ∧
      (GET (some tok) (some q)
        ((GET (some tok) (some q) cache now reply).cacheAfter) now2 reply2).status = 200 ∧
      (GET (some tok) (some q)
        ((GET (some tok) (some q) cache now reply).cacheAfter) now2 reply2).body =
        GetBody.success q (reply.items.map normalizeGitHubIssue) true
          (jsToISOString now)) := by
  obtain ⟨query, hquery⟩ := getQuery_of_valid q hq
  have hqe : q ≠ "" := by
    intro h
    rw [h] at hq
    exact absurd hq (by decide)
  have hfetch : fetchGitHubQueue q reply =
      .ok (reply.items.map normalizeGitHubIssue) := by
    simp [fetchGitHubQueue, hquery, hok]
  have hget : getCached cache now ("github:queue:" ++ q) =
      (none, (getCached cache now ("github:queue:" ++ q)).2) := by
    rw [← hmiss]
  have hr1 : GET (some tok) (some q) cache now reply =
      ⟨200,
        GetBody.success q (reply.items.map normalizeGitHubIssue) false
          (jsToISOString now), 1,
        setCache (getCached cache now ("github:queue:" ++ q)).2 now
          ("github:queue:" ++ q)
          ⟨reply.items.map normalizeGitHubIssue, jsToISOString now⟩⟩ := by
    rw [GET]
    rw [if_neg (by simp [htok]), if_neg (by simp [hqe])]
    simp only [Option.getD_some, hq]
    rw [if_neg (by simp)]
    rw [hget, hfetch]
  have hstore : (GET (some tok) (some q) cache now reply).cacheAfter
      ("github:queue:" ++ q) =
      some ⟨⟨reply.items.map normalizeGitHubIssue, jsToISOString now⟩, now⟩ := by
    rw [hr1]
    simp [setCache]
  refine ⟨by rw [hr1], by rw [hr1], by rw [hr1], hstore, ?_⟩
  intro now2 reply2 h60
  have hhit : getCached ((GET (some tok) (some q) cache now reply).cacheAfter)
      now2 ("github:queue:" ++ q) =
      (some ⟨reply.items.map normalizeGitHubIssue, jsToISOString now⟩,
        (GET (some tok) (some q) cache now reply).cacheAfter) := by
    rw [getCached, hstore]
    simp [CACHE_TTL, h60]
  have hr2 : GET (some tok) (some q)
      ((GET (some tok) (some q) cache now reply).cacheAfter) now2 reply2 =
      ⟨200,
        GetBody.success q (reply.items.map normalizeGitHubIssue) true
          (jsToISOString now), 0,
        (GET (some tok) (some q) cache now reply).cacheAfter⟩ := by
    rw [GET]
    rw [if_neg (by simp [htok]), if_neg (by simp [hqe])]
    simp only [Option.getD_some, hq]
    rw [if_neg (by simp)]
    rw [hhit]
  exact ⟨by rw [hr2], by rw [hr2], by rw [hr2]⟩

/-- Witness for C1: queue `needs-qa`, empty cache, a successful empty reply
at time 0, and a second request at time 59999. -/
theorem c1_fetch_then_cache_hit_witness :
    (("t" : String) ≠ "") ∧
    validQueues.contains "needs-qa" = true ∧
    (getCached cEmpty 0 ("github:queue:" ++ "needs-qa")).1 = none ∧
    responseOk okReply.status = true ∧
    (GET (some "t") (some "needs-qa") cEmpty 0 okReply).outboundFetches = 1 ∧
    (GET (some "t") (some "needs-qa") cEmpty 0 okReply).body =
      GetBody.success "needs-qa" [] false (jsToISOString 0) ∧
    ((59999 : Int) - 0 < 60000) ∧
    (GET (some "t") (some "needs-qa")
      ((GET (some "t") (some "needs-qa") cEmpty 0 okReply).cacheAfter)
      59999 okReply).outboundFetches = 0 ∧
    (GET (some "t") (some "needs-qa")
      ((GET (some "t") (some "needs-qa") cEmpty 0 okReply).cacheAfter)
      59999 okReply).body =
      GetBody.success "needs-qa" [] true (jsToISOString 0) :=
  ⟨by decide, by decide, by decide, by decide,
   (c1_fetch_then_cache_hit "t" "needs-qa" cEmpty 0 okReply (by decide)
     (by decide) (by decide) (by decide)).1,
   (c1_fetch_then_cache_hit "t" "needs-qa" cEmpty 0 okReply (by decide)
     (by decide) (by decide) (by decide)).2.2.1,
   by decide,
   ((c1_fetch_then_cache_hit "t" "needs-qa" cEmpty 0 okReply (by decide)
     (by decide) (by decide) (by decide)).2.2.2.2 59999 okReply (by decide)).1,
   ((c1_fetch_then_cache_hit "t" "needs-qa" cEmpty 0 okReply (by decide)
     (by decide) (by decide) (by decide)).2.2.2.2 59999 okReply (by decide)).2.2⟩

end CraneCommand
